import Mathlib

/-!
Verification of the ingestion-and-maintenance pipeline of the weather-project
repository, as implemented in src/esp_server/esp_server.py.

The Python source is shallowly embedded: every function below mirrors one
piece of the source (line references are given in the doc comments).  JSON
payload values are modelled by the inductive type `Value`; Python floats by
`PyFloat` (a finite rational, or one of the non-finite markers); Python
truthiness by `truthy`; the SQLite table by a list of `Row` records with
optional columns; the module-level counters by `ServerState`.  The handler
`do_POST` returns `Option StepResult`: `Option.none` models the exception
path of the handler (HTTP 500), `some` the HTTP 200 path.
-/

namespace WeatherEsp

/-- Model of a Python float value: a finite rational, positive or negative
infinity, or the not-a-number marker.  Finite doubles are modelled by exact
rationals; none of the verified claims depends on binary rounding. -/
inductive PyFloat where
  | finite (q : ℚ)
  | inf
  | ninf
  | nan
deriving DecidableEq

/-- Model of a JSON payload value as seen by the handler: JSON null (or an
absent key, since dict.get returns None for both), a string, or a number.
The claims under verification only involve these three shapes. -/
inductive Value where
  | null
  | str (s : String)
  | num (f : PyFloat)
deriving DecidableEq

/-- Python truthiness (bool(x)) for the modelled values: None is falsy, a
string is truthy iff nonempty, a number is truthy iff nonzero (note that
nan and the infinities are truthy). -/
def truthy (v : Value) : Bool :=
  match v with
  | Value.null => false
  | Value.str s => decide (s ≠ "")
  | Value.num (PyFloat.finite q) => decide (q ≠ 0)
  | Value.num _ => true

/-- Python's binary `or`: the left operand if truthy, otherwise the right
operand (returned as a value, not coerced to bool). -/
def pyOr (a b : Value) : Value := if truthy a then a else b

/-- Characters treated as whitespace by Python's str.strip(). -/
def pyIsSpace (c : Char) : Bool :=
  decide (c = ' ' ∨ c = '\t' ∨ c = '\n' ∨ c = '\r' ∨ c = '\x0b' ∨ c = '\x0c')

/-- Python str.strip() with no argument: remove leading and trailing
whitespace.  Defined structurally on the character list so that it reduces
in the kernel (the core String.trim does not). -/
def pyStrip (s : String) : String :=
  ⟨((s.data.dropWhile pyIsSpace).reverse.dropWhile pyIsSpace).reverse⟩

/-- ASCII lowering of one character, as Python str.lower() acts on the
ASCII range.  All strings compared by the source are ASCII. -/
def pyLowerChar (c : Char) : Char :=
  if 'A' ≤ c ∧ c ≤ 'Z' then Char.ofNat (c.toNat + 32) else c

/-- Python str.lower(), restricted to ASCII (sufficient for the source). -/
def pyLower (s : String) : String := ⟨s.data.map pyLowerChar⟩

/-- Numeric value of a list of decimal digit characters. -/
def digitsToNat (ds : List Char) : ℕ :=
  ds.foldl (fun a c => 10 * a + (c.toNat - 48)) 0

/-- Mantissa of a decimal literal: leading digits, an optional point with
further digits, requiring at least one digit in total; returns the integer
digits, the fraction digits and the unconsumed rest. -/
def parseMantissa (cs : List Char) : Option ((List Char × List Char) × List Char) :=
  let ip := cs.takeWhile Char.isDigit
  let r1 := cs.dropWhile Char.isDigit
  match r1 with
  | '.' :: r2 =>
      let fp := r2.takeWhile Char.isDigit
      let r3 := r2.dropWhile Char.isDigit
      if ip.isEmpty ∧ fp.isEmpty then Option.none else some ((ip, fp), r3)
  | _ => if ip.isEmpty then Option.none else some ((ip, []), r1)

/-- Optional exponent part of a decimal literal (input is already
lowercased): empty means exponent 0; otherwise the letter e, an optional
sign and at least one digit, consuming the whole rest. -/
def parseExp (cs : List Char) : Option ℤ :=
  match cs with
  | [] => some 0
  | 'e' :: r =>
      let sr : Bool × List Char :=
        match r with
        | '+' :: r2 => (false, r2)
        | '-' :: r2 => (true, r2)
        | _ => (false, r)
      let ds := sr.2.takeWhile Char.isDigit
      let r2 := sr.2.dropWhile Char.isDigit
      if ds.isEmpty ∨ ¬ r2.isEmpty then Option.none
      else some (if sr.1 then -(digitsToNat ds : ℤ) else (digitsToNat ds : ℤ))
  | _ => Option.none

/-- Exact rational value of mantissa digits shifted by a power of ten,
built with mkRat so that it reduces in the kernel. -/
def sciValue (mant : ℕ) (shift : ℤ) : ℚ :=
  if 0 ≤ shift then mkRat (mant * 10 ^ shift.toNat : ℕ) 1
  else mkRat (mant : ℤ) (10 ^ (-shift).toNat)

/-- Finite decimal literal (no sign, already lowercased): mantissa digits
followed by an optional exponent.  Python float() also accepts underscore
digit separators, which no verified claim exercises and which are not
modelled. -/
def parseDecimal (cs : List Char) : Option ℚ :=
  match parseMantissa cs with
  | Option.none => Option.none
  | some ((ip, fp), rest) =>
      match parseExp rest with
      | Option.none => Option.none
      | some e => some (sciValue (digitsToNat (ip ++ fp)) (e - (fp.length : ℤ)))

/-- Model of Python float(s) on an already stripped string: an optional
sign followed by inf, infinity, nan (case-insensitively) or a finite
decimal literal; anything else fails (raises ValueError in Python,
modelled as Option.none). -/
def pyParseFloat (s : String) : Option PyFloat :=
  let cs := (pyLower s).data
  let sr : Bool × List Char :=
    match cs with
    | '+' :: r => (false, r)
    | '-' :: r => (true, r)
    | r => (false, r)
  if sr.2 = "inf".data ∨ sr.2 = "infinity".data then
    some (if sr.1 then PyFloat.ninf else PyFloat.inf)
  else if sr.2 = "nan".data then some PyFloat.nan
  else
    match parseDecimal sr.2 with
    | some q => some (PyFloat.finite (if sr.1 then -q else q))
    | Option.none => Option.none

/-- Embedding of to_float (esp_server.py lines 33 to 44): None maps to
None; otherwise take str(x), strip it, map the empty string and the
case-insensitive literal nan to None, parse as float and keep only finite
results; any failure yields None.  For a numeric input x, str(x) of a
finite float round-trips through float() to the same value and is never
empty or equal to nan, so the finite case returns the value unchanged;
str of the non-finite floats gives nan, inf or -inf, all of which coerce
to None (nan by the guard, the infinities by the finiteness check). -/
def to_float (x : Value) : Option ℚ :=
  match x with
  | Value.null => Option.none
  | Value.num (PyFloat.finite q) => some q
  | Value.num _ => Option.none
  | Value.str s =>
      let t := pyStrip s
      if t = "" ∨ pyLower t = "nan" then Option.none
      else
        match pyParseFloat t with
        | some (PyFloat.finite v) => some v
        | _ => Option.none

/-- A submission body: the key/value map produced by json.loads, modelled
as an association list with distinct keys. -/
abbrev Payload := List (String × Value)

/-- payload.get(k): the value under k, or None when the key is absent. -/
def pget (p : Payload) (k : String) : Value := (p.lookup k).getD Value.null

/-- Configuration surface of the server (esp_server.py lines 9 to 27),
with the same defaults as the environment parsing.  indoor_sensor and
outdoor_sensor hold the already lowercased and stripped values, as the
source normalizes them once at startup (lines 25 and 26). -/
structure Config where
  retention_days : ℕ
  commit_every : ℕ
  cleanup_every : ℕ
  cleanup_interval_sec : ℕ
  default_zone : String
  default_source : String
  indoor_sensor : String
  outdoor_sensor : String
  force_zone_by_sensor : Bool
deriving DecidableEq

/-- The default configuration (no environment overrides). -/
def defaultConfig : Config :=
  { retention_days := 90
    commit_every := 1
    cleanup_every := 400
    cleanup_interval_sec := 60
    default_zone := "indoor"
    default_source := "esp32"
    indoor_sensor := ""
    outdoor_sensor := ""
    force_zone_by_sensor := false }

/-- Embedding of resolve_zone (esp_server.py lines 68 to 85): first the
hard sensor-to-zone binding when enabled, then a recognized payload hint
(lowercased and stripped), then the configured default zone. -/
def resolve_zone (cfg : Config) (sensor_canonical : String) (zone_from_payload : String) : String :=
  let s := pyStrip (pyLower sensor_canonical)
  if cfg.force_zone_by_sensor ∧ cfg.indoor_sensor ≠ "" ∧ s = cfg.indoor_sensor then "indoor"
  else if cfg.force_zone_by_sensor ∧ cfg.outdoor_sensor ≠ "" ∧ s = cfg.outdoor_sensor then "outdoor"
  else
    let z := pyStrip (pyLower zone_from_payload)
    if zone_from_payload ≠ "" ∧ (z = "indoor" ∨ z = "outdoor") then z
    else cfg.default_zone

/-- One row of the readings table (schema at esp_server.py lines 94 to
104): server timestamp, sensor tag, and the nullable columns; a column the
INSERT does not mention is NULL, modelled by Option.none. -/
structure Row where
  ts : ℤ
  sensor : String
  zone : Option String
  temp : Option ℚ
  hum : Option ℚ
  press : Option ℚ
  source : Option String
deriving DecidableEq

/-- Process-wide mutable state of the server: the table contents and the
three maintenance variables (esp_server.py lines 109 to 111). -/
structure ServerState where
  rows : List Row
  inserts_since_commit : ℕ
  inserts_since_cleanup : ℕ
  last_cleanup_ts : ℚ
deriving DecidableEq

/-- Observable outcome of one successful POST: the new state, the rows
inserted by this submission, whether a commit was forced, whether a
retention sweep ran, how many rows it deleted, whether incremental vacuum
ran, and the HTTP status. -/
structure StepResult where
  state : ServerState
  inserted : List Row
  flushed : Bool
  swept : Bool
  deleted : ℕ
  reclaimed : Bool
  status : ℕ
deriving DecidableEq

/-- Raw value of the DHT temperature synonym chain (line 134). -/
def dhtTempRaw (p : Payload) : Value :=
  pyOr (pget p "t_dht") (pget p "temperature_dht")

/-- Raw value of the DHT humidity synonym chain (line 135). -/
def dhtHumRaw (p : Payload) : Value :=
  pyOr (pget p "h_dht") (pget p "humidity_dht")

/-- Raw value of the BME temperature synonym chain (lines 138 and 139);
Python's or is left associative. -/
def bmeTempRaw (p : Payload) : Value :=
  pyOr (pyOr (pyOr (pget p "t_bme") (pget p "temperature")) (pget p "temp")) (pget p "lt_bme")

/-- Raw value of the BME humidity synonym chain (lines 140 and 141). -/
def bmeHumRaw (p : Payload) : Value :=
  pyOr (pyOr (pget p "h_bme") (pget p "humidity")) (pget p "hum")

/-- Raw value of the BME pressure synonym chain (lines 142 and 143). -/
def bmePressRaw (p : Payload) : Value :=
  pyOr (pyOr (pget p "pressure") (pget p "press")) (pget p "p_bme")

/-- Calling str.strip() on a value: succeeds with the string itself for a
string, fails (AttributeError, hence the 500 path) otherwise. -/
def pyStrVal (v : Value) : Option String :=
  match v with
  | Value.str s => some s
  | _ => Option.none

/-- The zone and source hints of a submission (lines 145 and 146): each is
the payload value with a falsy fallback, then stripped; a truthy
non-string value makes the handler raise. -/
def hintsOf (cfg : Config) (p : Payload) : Option (String × String) :=
  (pyStrVal (pyOr (pget p "zone") (Value.str ""))).bind fun z =>
    (pyStrVal (pyOr (pget p "source") (Value.str cfg.default_source))).map fun src =>
      (pyStrip z, pyStrip src)

/-- Build the row one INSERT statement writes (lines 154 to 166 and 173 to
187): ts and sensor always; zone only when the resolved zone differs from
the default; each measurement column only when its value is present;
source only when it differs from the default. -/
def mkRow (cfg : Config) (ts : ℤ) (sensor zone source : String)
    (t h pr : Option ℚ) : Row :=
  let z := resolve_zone cfg sensor zone
  { ts := ts
    sensor := sensor
    zone := if z ≠ cfg.default_zone then some z else Option.none
    temp := t
    hum := h
    press := pr
    source := if source ≠ cfg.default_source then some source else Option.none }

/-- The rows a submission inserts (lines 150 to 188): a dht22 row when at
least one DHT field is present, then a bme280 row when at least one BME
field is present; the dht22 INSERT never mentions the press column. -/
def groupRows (cfg : Config) (p : Payload) (ts : ℤ) (zone source : String) : List Row :=
  let t_dht := to_float (dhtTempRaw p)
  let h_dht := to_float (dhtHumRaw p)
  let t_bme := to_float (bmeTempRaw p)
  let h_bme := to_float (bmeHumRaw p)
  let p_bme := to_float (bmePressRaw p)
  (if t_dht.isSome ∨ h_dht.isSome then
      [mkRow cfg ts "dht22" zone source t_dht h_dht Option.none]
    else []) ++
  (if t_bme.isSome ∨ h_bme.isSome ∨ p_bme.isSome then
      [mkRow cfg ts "bme280" zone source t_bme h_bme p_bme]
    else [])

/-- Python int() on a float: truncation toward zero. -/
def pyInt (q : ℚ) : ℤ := Int.tdiv q.num (q.den : ℤ)

/-- Embedding of the maintenance tail of do_POST (lines 190 to 210): if
nothing was written, answer 200 and leave all state untouched; otherwise
advance both counters once (per submission, not per row), force a commit
when the commit counter reaches COMMIT_EVERY and reset it, then run the
retention sweep when the cleanup counter reaches CLEANUP_EVERY and at
least CLEANUP_INTERVAL_SEC elapsed since the last sweep: delete the rows
older than the cutoff, run incremental vacuum only when the deletion
removed at least one row, and reset the cleanup counter and watermark
unconditionally. -/
def maintain (cfg : Config) (now : ℚ) (st : ServerState) (inserted : List Row) : StepResult :=
  if inserted = [] then
    { state := st
      inserted := inserted
      flushed := false
      swept := false
      deleted := 0
      reclaimed := false
      status := 200 }
  else if cfg.cleanup_every ≤ st.inserts_since_cleanup + 1 ∧
      (cfg.cleanup_interval_sec : ℚ) ≤ now - st.last_cleanup_ts then
    { state :=
        { rows := (st.rows ++ inserted).filter fun r =>
            ! decide (r.ts < pyInt now - (cfg.retention_days : ℤ) * 24 * 3600)
          inserts_since_commit :=
            if cfg.commit_every ≤ st.inserts_since_commit + 1 then 0
            else st.inserts_since_commit + 1
          inserts_since_cleanup := 0
          last_cleanup_ts := now }
      inserted := inserted
      flushed := decide (cfg.commit_every ≤ st.inserts_since_commit + 1)
      swept := true
      deleted := ((st.rows ++ inserted).filter fun r =>
        decide (r.ts < pyInt now - (cfg.retention_days : ℤ) * 24 * 3600)).length
      reclaimed := decide (((st.rows ++ inserted).filter fun r =>
        decide (r.ts < pyInt now - (cfg.retention_days : ℤ) * 24 * 3600)).length ≠ 0)
      status := 200 }
  else
    { state :=
        { rows := st.rows ++ inserted
          inserts_since_commit :=
            if cfg.commit_every ≤ st.inserts_since_commit + 1 then 0
            else st.inserts_since_commit + 1
          inserts_since_cleanup := st.inserts_since_cleanup + 1
          last_cleanup_ts := st.last_cleanup_ts }
      inserted := inserted
      flushed := decide (cfg.commit_every ≤ st.inserts_since_commit + 1)
      swept := false
      deleted := 0
      reclaimed := false
      status := 200 }

/-- Embedding of the success path of SimpleHandler.do_POST (esp_server.py
lines 115 to 210) on a well-formed JSON body: ts is the server timestamp
taken at line 131, now the wall-clock value taken at line 199 (the source
reads the clock twice).  Option.none models the except branch (HTTP 500);
the only modelled failure is a truthy non-string zone or source value. -/
def do_POST (cfg : Config) (p : Payload) (ts : ℤ) (now : ℚ) (st : ServerState) :
    Option StepResult :=
  (hintsOf cfg p).map fun zs =>
    maintain cfg now st (groupRows cfg p ts zs.1 zs.2)

/-- The fresh state of a just-started process (counters zero, empty
table; lines 109 to 111). -/
def initState : ServerState :=
  { rows := [], inserts_since_commit := 0, inserts_since_cleanup := 0, last_cleanup_ts := 0 }

/-- Spec-level reading of a synonym chain over a priority-ordered key
list: the value under the first key whose value is truthy; when no key
holds a truthy value the chain evaluates to the last key's raw value,
exactly as a Python or-chain does. -/
def orChain (p : Payload) : List String → Value
  | [] => Value.null
  | [k] => pget p k
  | k :: k2 :: ks => if truthy (pget p k) then pget p k else orChain p (k2 :: ks)

/-- The DHT temperature synonym keys in their fixed priority order. -/
def dhtTempKeys : List String := ["t_dht", "temperature_dht"]

/-- The DHT humidity synonym keys in their fixed priority order. -/
def dhtHumKeys : List String := ["h_dht", "humidity_dht"]

/-- The BME temperature synonym keys in their fixed priority order. -/
def bmeTempKeys : List String := ["t_bme", "temperature", "temp", "lt_bme"]

/-- The BME humidity synonym keys in their fixed priority order. -/
def bmeHumKeys : List String := ["h_bme", "humidity", "hum"]

/-- The BME pressure synonym keys in their fixed priority order. -/
def bmePressKeys : List String := ["pressure", "press", "p_bme"]

/-- The end-to-end scenario submission of claim C1. -/
def c1Payload : Payload :=
  [("t_bme", Value.num (PyFloat.finite (mkRat 43 2))),
   ("h_bme", Value.num (PyFloat.finite (mkRat 44 1))),
   ("pressure", Value.num (PyFloat.finite (mkRat 751 1))),
   ("zone", Value.str "indoor")]

/-- The row the C1 submission actually inserts: the zone column is NULL
because the resolved zone equals the configured default. -/
def c1Row : Row :=
  { ts := 1700000000, sensor := "bme280", zone := Option.none,
    temp := some (mkRat 43 2), hum := some (mkRat 44 1),
    press := some (mkRat 751 1), source := Option.none }

/-- The full outcome of the C1 submission under the default
configuration (COMMIT_EVERY is 1, so the insert is committed at once). -/
def c1Res : StepResult :=
  { state := { rows := [c1Row], inserts_since_commit := 0,
               inserts_since_cleanup := 1, last_cleanup_ts := 0 },
    inserted := [c1Row], flushed := true, swept := false,
    deleted := 0, reclaimed := false, status := 200 }

/-- A submission carrying the BME temperature 0 under the highest
priority key and 5 under the second key (claim C2). -/
def c2Payload : Payload :=
  [("t_bme", Value.num (PyFloat.finite (mkRat 0 1))),
   ("temperature", Value.num (PyFloat.finite (mkRat 5 1)))]

/-- The row the C2 submission inserts: temperature 5, because 0 is falsy
and the or-chain skips it. -/
def c2Row : Row :=
  { ts := 1700000000, sensor := "bme280", zone := Option.none,
    temp := some (mkRat 5 1), hum := Option.none,
    press := Option.none, source := Option.none }

/-- The full outcome of the C2 submission under the default
configuration. -/
def c2Res : StepResult :=
  { state := { rows := [c2Row], inserts_since_commit := 0,
               inserts_since_cleanup := 1, last_cleanup_ts := 0 },
    inserted := [c2Row], flushed := true, swept := false,
    deleted := 0, reclaimed := false, status := 200 }

/-- A configuration with flush threshold 2 (claim C3). -/
def c3Config : Config := { defaultConfig with commit_every := 2 }

/-- A submission whose payload carries both sensor groups, so it inserts
two rows at once (claim C3). -/
def c3Payload : Payload :=
  [("t_dht", Value.num (PyFloat.finite (mkRat 21 1))),
   ("t_bme", Value.num (PyFloat.finite (mkRat 22 1)))]

/-- The dht22 row of the C3 submission. -/
def c3DhtRow : Row :=
  { ts := 1700000000, sensor := "dht22", zone := Option.none,
    temp := some (mkRat 21 1), hum := Option.none,
    press := Option.none, source := Option.none }

/-- The bme280 row of the C3 submission. -/
def c3BmeRow : Row :=
  { ts := 1700000000, sensor := "bme280", zone := Option.none,
    temp := some (mkRat 22 1), hum := Option.none,
    press := Option.none, source := Option.none }

/-- The full outcome of the C3 submission: two rows inserted but the
flush counter advanced only to 1, so no flush despite threshold 2. -/
def c3Res : StepResult :=
  { state := { rows := [c3DhtRow, c3BmeRow], inserts_since_commit := 1,
               inserts_since_cleanup := 1, last_cleanup_ts := 0 },
    inserted := [c3DhtRow, c3BmeRow], flushed := false, swept := false,
    deleted := 0, reclaimed := false, status := 200 }

/-- The empty submission (claim C4): no recognized field at all. -/
def c4Payload : Payload := []

/-- The outcome of the empty submission: nothing inserted, nothing
changed, still HTTP 200. -/
def c4Res : StepResult :=
  { state := initState, inserted := [], flushed := false, swept := false,
    deleted := 0, reclaimed := false, status := 200 }

/-- A one-row submission used to exercise the sweep gate (claim C5). -/
def c5Payload : Payload := [("h_bme", Value.num (PyFloat.finite (mkRat 44 1)))]

/-- The row the C5 submission inserts. -/
def c5Row : Row :=
  { ts := 1700000000, sensor := "bme280", zone := Option.none,
    temp := Option.none, hum := some (mkRat 44 1),
    press := Option.none, source := Option.none }

/-- The outcome of the C5 submission under the default configuration:
the count gate (400) is far from satisfied, so no sweep runs. -/
def c5Res : StepResult :=
  { state := { rows := [c5Row], inserts_since_commit := 0,
               inserts_since_cleanup := 1, last_cleanup_ts := 0 },
    inserted := [c5Row], flushed := true, swept := false,
    deleted := 0, reclaimed := false, status := 200 }

/-- A configuration whose sweep count threshold is 1, so every writing
submission is sweep-eligible (claims C6 and C7). -/
def c6Config : Config := { defaultConfig with cleanup_every := 1 }

/-- A row far older than the retention window at server time
1700000000. -/
def c6OldRow : Row :=
  { ts := 3, sensor := "bme280", zone := Option.none,
    temp := some (mkRat 1 1), hum := Option.none,
    press := Option.none, source := Option.none }

/-- A store holding one ancient row, counters at zero. -/
def c6State : ServerState :=
  { rows := [c6OldRow], inserts_since_commit := 0,
    inserts_since_cleanup := 0, last_cleanup_ts := 0 }

/-- A one-row submission that triggers the sweep under c6Config. -/
def c6Payload : Payload := [("t_bme", Value.num (PyFloat.finite (mkRat 20 1)))]

/-- The row the C6 submission inserts. -/
def c6NewRow : Row :=
  { ts := 1700000000, sensor := "bme280", zone := Option.none,
    temp := some (mkRat 20 1), hum := Option.none,
    press := Option.none, source := Option.none }

/-- The outcome of the C6 submission: the sweep runs, deletes exactly the
ancient row (below the cutoff 1700000000 minus 90 days) and keeps the
fresh one, then vacuums because one row was deleted. -/
def c6Res : StepResult :=
  { state := { rows := [c6NewRow], inserts_since_commit := 0,
               inserts_since_cleanup := 0, last_cleanup_ts := 1700000000 },
    inserted := [c6NewRow], flushed := true, swept := true,
    deleted := 1, reclaimed := true, status := 200 }

/-- A one-row submission for the zero-deletion sweep of claim C7. -/
def c7Payload : Payload := [("hum", Value.num (PyFloat.finite (mkRat 50 1)))]

/-- The row the C7 submission inserts. -/
def c7Row : Row :=
  { ts := 1700000000, sensor := "bme280", zone := Option.none,
    temp := Option.none, hum := some (mkRat 50 1),
    press := Option.none, source := Option.none }

/-- The outcome of the C7 submission from an empty store under c6Config:
the sweep runs but deletes nothing, skips the vacuum, and still resets
the counter and watermark. -/
def c7Res : StepResult :=
  { state := { rows := [c7Row], inserts_since_commit := 0,
               inserts_since_cleanup := 0, last_cleanup_ts := 1700000000 },
    inserted := [c7Row], flushed := true, swept := true,
    deleted := 0, reclaimed := false, status := 200 }

/-- A configuration with the hard sensor-to-zone binding enabled and the
bme280 sensor bound to the indoor zone (claim C8). -/
def c8On : Config :=
  { defaultConfig with force_zone_by_sensor := true, indoor_sensor := "bme280" }

/-- The submission of claim C10: a DHT reading together with a pressure
value, so both groups insert a row. -/
def c10Payload : Payload :=
  [("t_dht", Value.num (PyFloat.finite (mkRat 22 1))),
   ("pressure", Value.num (PyFloat.finite (mkRat 751 1)))]

/-- The dht22 row of the C10 submission: its press column is NULL even
though the payload carries a pressure value. -/
def c10DhtRow : Row :=
  { ts := 1700000000, sensor := "dht22", zone := Option.none,
    temp := some (mkRat 22 1), hum := Option.none,
    press := Option.none, source := Option.none }

/-- The bme280 row of the C10 submission, which carries the pressure. -/
def c10BmeRow : Row :=
  { ts := 1700000000, sensor := "bme280", zone := Option.none,
    temp := Option.none, hum := Option.none,
    press := some (mkRat 751 1), source := Option.none }

/-- The full outcome of the C10 submission under the default
configuration. -/
def c10Res : StepResult :=
  { state := { rows := [c10DhtRow, c10BmeRow], inserts_since_commit := 0,
               inserts_since_cleanup := 1, last_cleanup_ts := 0 },
    inserted := [c10DhtRow, c10BmeRow], flushed := true, swept := false,
    deleted := 0, reclaimed := false, status := 200 }

/-! ## Helper lemmas -/

theorem do_POST_some {cfg : Config} {p : Payload} {ts : ℤ} {now : ℚ} {st : ServerState}
    {res : StepResult} (h : do_POST cfg p ts now st = some res) :
    ∃ zs : String × String, hintsOf cfg p = some zs ∧
      res = maintain cfg now st (groupRows cfg p ts zs.1 zs.2) := by
  unfold do_POST at h
  cases hh : hintsOf cfg p with
  | none => rw [hh] at h; exact absurd h (by simp)
  | some zs =>
      rw [hh, Option.map_some'] at h
      exact ⟨zs, rfl, (Option.some_inj.mp h).symm⟩

theorem maintain_nil (cfg : Config) (now : ℚ) (st : ServerState) :
    maintain cfg now st [] =
      { state := st, inserted := [], flushed := false, swept := false,
        deleted := 0, reclaimed := false, status := 200 } := by
  unfold maintain
  rw [if_pos rfl]

theorem maintain_no_sweep (cfg : Config) (now : ℚ) (st : ServerState) (ins : List Row)
    (hne : ins ≠ [])
    (hg : ¬ (cfg.cleanup_every ≤ st.inserts_since_cleanup + 1 ∧
        (cfg.cleanup_interval_sec : ℚ) ≤ now - st.last_cleanup_ts)) :
    maintain cfg now st ins =
      { state := { rows := st.rows ++ ins,
                   inserts_since_commit :=
                     if cfg.commit_every ≤ st.inserts_since_commit + 1 then 0
                     else st.inserts_since_commit + 1,
                   inserts_since_cleanup := st.inserts_since_cleanup + 1,
                   last_cleanup_ts := st.last_cleanup_ts },
        inserted := ins,
        flushed := decide (cfg.commit_every ≤ st.inserts_since_commit + 1),
        swept := false, deleted := 0, reclaimed := false, status := 200 } := by
  unfold maintain
  rw [if_neg hne, if_neg hg]

theorem maintain_sweep (cfg : Config) (now : ℚ) (st : ServerState) (ins : List Row)
    (hne : ins ≠ [])
    (hg : cfg.cleanup_every ≤ st.inserts_since_cleanup + 1 ∧
        (cfg.cleanup_interval_sec : ℚ) ≤ now - st.last_cleanup_ts) :
    maintain cfg now st ins =
      { state := { rows := (st.rows ++ ins).filter fun r =>
                     ! decide (r.ts < pyInt now - (cfg.retention_days : ℤ) * 24 * 3600),
                   inserts_since_commit :=
                     if cfg.commit_every ≤ st.inserts_since_commit + 1 then 0
                     else st.inserts_since_commit + 1,
                   inserts_since_cleanup := 0,
                   last_cleanup_ts := now },
        inserted := ins,
        flushed := decide (cfg.commit_every ≤ st.inserts_since_commit + 1),
        swept := true,
        deleted := ((st.rows ++ ins).filter fun r =>
          decide (r.ts < pyInt now - (cfg.retention_days : ℤ) * 24 * 3600)).length,
        reclaimed := decide (((st.rows ++ ins).filter fun r =>
          decide (r.ts < pyInt now - (cfg.retention_days : ℤ) * 24 * 3600)).length ≠ 0),
        status := 200 } := by
  unfold maintain
  rw [if_neg hne, if_pos hg]

theorem maintain_inserted (cfg : Config) (now : ℚ) (st : ServerState) (ins : List Row) :
    (maintain cfg now st ins).inserted = ins := by
  by_cases hne : ins = []
  · subst hne; rw [maintain_nil]
  · by_cases hg : cfg.cleanup_every ≤ st.inserts_since_cleanup + 1 ∧
        (cfg.cleanup_interval_sec : ℚ) ≤ now - st.last_cleanup_ts
    · rw [maintain_sweep cfg now st ins hne hg]
    · rw [maintain_no_sweep cfg now st ins hne hg]

theorem length_filter_pos_add_neg {α : Type} (l : List α) (p : α → Bool) :
    (l.filter fun a => p a).length + (l.filter fun a => ! p a).length = l.length := by
  induction l with
  | nil => rfl
  | cons a l ih =>
      cases h : p a <;> simp [List.filter_cons, h] <;> omega

theorem bmeTempRaw_eq_orChain (p : Payload) : bmeTempRaw p = orChain p bmeTempKeys := by
  simp only [bmeTempRaw, bmeTempKeys, orChain, pyOr]
  by_cases h1 : truthy (pget p "t_bme") <;>
    by_cases h2 : truthy (pget p "temperature") <;>
      by_cases h3 : truthy (pget p "temp") <;>
        simp [h1, h2, h3]

theorem dhtTempRaw_eq_orChain (p : Payload) : dhtTempRaw p = orChain p dhtTempKeys := by
  simp only [dhtTempRaw, dhtTempKeys, orChain, pyOr]

theorem dhtHumRaw_eq_orChain (p : Payload) : dhtHumRaw p = orChain p dhtHumKeys := by
  simp only [dhtHumRaw, dhtHumKeys, orChain, pyOr]

theorem bmeHumRaw_eq_orChain (p : Payload) : bmeHumRaw p = orChain p bmeHumKeys := by
  simp only [bmeHumRaw, bmeHumKeys, orChain, pyOr]
  by_cases h1 : truthy (pget p "h_bme") <;>
    by_cases h2 : truthy (pget p "humidity") <;>
      simp [h1, h2]

theorem bmePressRaw_eq_orChain (p : Payload) : bmePressRaw p = orChain p bmePressKeys := by
  simp only [bmePressRaw, bmePressKeys, orChain, pyOr]
  by_cases h1 : truthy (pget p "pressure") <;>
    by_cases h2 : truthy (pget p "press") <;>
      simp [h1, h2]

/-! ## Claim C1 -/

/-- Claim C1 as frozen is false on the code: for the submission with
t_bme 21.5, h_bme 44, pressure 751 and zone indoor, processed at server
time 1700000000 under the default configuration, the single inserted row
holds NULL in the zone column (the resolved zone equals the configured
default, so the INSERT omits the column), not the value indoor the claim
asserts. -/
theorem c1_counterexample :
    ((do_POST defaultConfig c1Payload 1700000000 1700000000 initState).map
      fun res => res.inserted.map Row.zone) = some [Option.none] ∧
    (some [Option.none] : Option (List (Option String))) ≠ some [some "indoor"] :=
  ⟨by decide, by decide⟩

/-- Claim C1 (amended): for the C1 submission at server time 1700000000
under the default configuration, exactly one row is inserted and it
equals (sensor bme280, ts 1700000000, temp 21.5, hum 44, press 751) with
the zone and source columns NULL; the zone resolves to indoor but equals
the configured default zone, so it is stored as NULL. -/
theorem c1_end_to_end :
    do_POST defaultConfig c1Payload 1700000000 1700000000 initState = some c1Res ∧
    c1Res.inserted = [c1Row] ∧ c1Row.zone = Option.none ∧
    resolve_zone defaultConfig "bme280" "indoor" = "indoor" ∧
    defaultConfig.default_zone = "indoor" := by decide

/-! ## Claim C2 -/

/-- Claim C2 as frozen is false on the code: in a submission carrying
t_bme 0 together with temperature 5, the stored BME temperature is 5,
not the value 0 supplied under the highest-priority key, because the
source selects with a Python or-chain over raw values and 0 is falsy. -/
theorem c2_counterexample :
    ((do_POST defaultConfig c2Payload 1700000000 1700000000 initState).map
      fun res => res.inserted.map Row.temp) = some [some (mkRat 5 1)] ∧
    (some (mkRat 5 1) : Option ℚ) ≠ some (mkRat 0 1) :=
  ⟨by decide, by decide⟩

/-- Claim C2 (amended): for every submission and every inserted row, the
value stored for each synonym-chained field is the numeric coercion of
the Python or-chain over that field's synonym keys in their fixed
priority order: the raw value under the earliest key whose value is
truthy wins; a falsy raw value (such as 0, the empty string or null)
under an earlier key is skipped; when no key holds a truthy value the
chain yields the last key's raw value.  A dht22 row stores the DHT
temperature and humidity chains; a bme280 row stores the BME
temperature, humidity and pressure chains; no other rows exist. -/
theorem c2_synonym_chains :
    ∀ cfg p ts now st res r, do_POST cfg p ts now st = some res →
      r ∈ res.inserted →
      (r.sensor = "dht22" →
        r.temp = to_float (orChain p dhtTempKeys) ∧
        r.hum = to_float (orChain p dhtHumKeys)) ∧
      (r.sensor = "bme280" →
        r.temp = to_float (orChain p bmeTempKeys) ∧
        r.hum = to_float (orChain p bmeHumKeys) ∧
        r.press = to_float (orChain p bmePressKeys)) ∧
      (r.sensor = "dht22" ∨ r.sensor = "bme280") := by
  intro cfg p ts now st res r h hr
  obtain ⟨zs, hz, rfl⟩ := do_POST_some h
  rw [maintain_inserted] at hr
  simp only [groupRows] at hr
  rw [List.mem_append] at hr
  rcases hr with hr | hr
  · by_cases hd : (to_float (dhtTempRaw p)).isSome ∨ (to_float (dhtHumRaw p)).isSome
    · rw [if_pos hd, List.mem_singleton] at hr
      subst hr
      refine ⟨fun _ => ⟨?_, ?_⟩, fun hs => ?_, Or.inl rfl⟩
      · show to_float (dhtTempRaw p) = to_float (orChain p dhtTempKeys)
        rw [dhtTempRaw_eq_orChain]
      · show to_float (dhtHumRaw p) = to_float (orChain p dhtHumKeys)
        rw [dhtHumRaw_eq_orChain]
      · simp only [mkRow] at hs
        exact absurd hs (by decide)
    · rw [if_neg hd] at hr
      exact absurd hr (List.not_mem_nil r)
  · by_cases hb : (to_float (bmeTempRaw p)).isSome ∨ (to_float (bmeHumRaw p)).isSome ∨
        (to_float (bmePressRaw p)).isSome
    · rw [if_pos hb, List.mem_singleton] at hr
      subst hr
      refine ⟨fun hs => ?_, fun _ => ⟨?_, ?_, ?_⟩, Or.inr rfl⟩
      · simp only [mkRow] at hs
        exact absurd hs (by decide)
      · show to_float (bmeTempRaw p) = to_float (orChain p bmeTempKeys)
        rw [bmeTempRaw_eq_orChain]
      · show to_float (bmeHumRaw p) = to_float (orChain p bmeHumKeys)
        rw [bmeHumRaw_eq_orChain]
      · show to_float (bmePressRaw p) = to_float (orChain p bmePressKeys)
        rw [bmePressRaw_eq_orChain]
    · rw [if_neg hb] at hr
      exact absurd hr (List.not_mem_nil r)

/-- Witness for the amended claim C2, applying the theorem at two
concrete submissions: the C2 bme280 row carries the chain values of all
three BME fields, and the C10 dht22 row carries the chain values of both
DHT fields. -/
theorem c2_synonym_chains_witness :
    (do_POST defaultConfig c2Payload 1700000000 1700000000 initState = some c2Res) ∧
    c2Row ∈ c2Res.inserted ∧
    c2Row.temp = to_float (orChain c2Payload bmeTempKeys) ∧
    c2Row.hum = to_float (orChain c2Payload bmeHumKeys) ∧
    c2Row.press = to_float (orChain c2Payload bmePressKeys) ∧
    (do_POST defaultConfig c10Payload 1700000000 1700000000 initState = some c10Res) ∧
    c10DhtRow ∈ c10Res.inserted ∧
    c10DhtRow.temp = to_float (orChain c10Payload dhtTempKeys) ∧
    c10DhtRow.hum = to_float (orChain c10Payload dhtHumKeys) := by
  have h2 : do_POST defaultConfig c2Payload 1700000000 1700000000 initState = some c2Res := by
    decide
  have h10 : do_POST defaultConfig c10Payload 1700000000 1700000000 initState = some c10Res := by
    decide
  have hb := (c2_synonym_chains defaultConfig c2Payload 1700000000 1700000000 initState c2Res
    c2Row h2 (by decide)).2.1 (by decide)
  have hd := (c2_synonym_chains defaultConfig c10Payload 1700000000 1700000000 initState c10Res
    c10DhtRow h10 (by decide)).1 (by decide)
  exact ⟨h2, by decide, hb.1, hb.2.1, hb.2.2, h10, by decide, hd.1, hd.2⟩

/-! ## Claim C3 -/

/-- Claim C3 as frozen is false on the code: with flush threshold 2, a
single submission that inserts two rows (its second row is the 2nd row
overall, so the claim demands a flush) does not flush, because the
counter counts writing submissions, not rows. -/
theorem c3_counterexample :
    ((do_POST c3Config c3Payload 1700000000 1700000000 initState).map
      fun res => (res.inserted.length, res.flushed)) = some (2, false) ∧
    ((2, false) : ℕ × Bool) ≠ (2, true) :=
  ⟨by decide, by decide⟩

/-- Claim C3 (amended): with flush threshold T, a forced flush occurs at
a submission that inserted at least one row exactly when the
submissions-with-writes counter reaches T (so on every T-th writing
submission, not every T-th row), and the counter resets to zero
immediately after the flush, otherwise holding the incremented value. -/
theorem c3_flush_per_writing_submission :
    ∀ cfg p ts now st res, do_POST cfg p ts now st = some res → res.inserted ≠ [] →
      (res.flushed = true ↔ cfg.commit_every ≤ st.inserts_since_commit + 1) ∧
      res.state.inserts_since_commit =
        (if cfg.commit_every ≤ st.inserts_since_commit + 1 then 0
         else st.inserts_since_commit + 1) := by
  intro cfg p ts now st res h hne
  obtain ⟨zs, hz, rfl⟩ := do_POST_some h
  rw [maintain_inserted] at hne
  by_cases hg : cfg.cleanup_every ≤ st.inserts_since_cleanup + 1 ∧
      (cfg.cleanup_interval_sec : ℚ) ≤ now - st.last_cleanup_ts
  · rw [maintain_sweep cfg now st _ hne hg]
    exact ⟨decide_eq_true_iff, rfl⟩
  · rw [maintain_no_sweep cfg now st _ hne hg]
    exact ⟨decide_eq_true_iff, rfl⟩

/-- Witness for the amended claim C3 at the concrete C3 submission:
two rows inserted, no flush, counter advanced to 1. -/
theorem c3_flush_per_writing_submission_witness :
    (do_POST c3Config c3Payload 1700000000 1700000000 initState = some c3Res) ∧
    c3Res.inserted.length = 2 ∧ c3Res.flushed = false ∧
    c3Res.state.inserts_since_commit = 1 := by
  have h : do_POST c3Config c3Payload 1700000000 1700000000 initState = some c3Res := by
    decide
  have hc := c3_flush_per_writing_submission c3Config c3Payload 1700000000 1700000000
    initState c3Res h (by decide)
  have hcount := hc.2
  rw [if_neg (by decide)] at hcount
  exact ⟨h, by decide, Bool.eq_false_iff.mpr fun hf => absurd (hc.1.mp hf) (by decide),
    hcount⟩

/-! ## Claim C4 -/

/-- Claim C4: every successfully processed submission returns HTTP 200;
a submission that inserted no rows leaves the entire server state
untouched; a submission that inserted at least one row (whether one or
two) advances the flush counter and the sweep counter by exactly one
each, after which each counter is reset to zero exactly when its
threshold check fires. -/
theorem c4_counters_per_submission :
    ∀ cfg p ts now st res, do_POST cfg p ts now st = some res →
      res.status = 200 ∧
      (res.inserted = [] → res.state = st) ∧
      (res.inserted ≠ [] →
        res.state.inserts_since_commit =
          (if cfg.commit_every ≤ st.inserts_since_commit + 1 then 0
           else st.inserts_since_commit + 1) ∧
        res.state.inserts_since_cleanup =
          (if cfg.cleanup_every ≤ st.inserts_since_cleanup + 1 ∧
              (cfg.cleanup_interval_sec : ℚ) ≤ now - st.last_cleanup_ts then 0
           else st.inserts_since_cleanup + 1)) := by
  intro cfg p ts now st res h
  obtain ⟨zs, hz, rfl⟩ := do_POST_some h
  by_cases hne : groupRows cfg p ts zs.1 zs.2 = []
  · rw [hne, maintain_nil]
    exact ⟨rfl, fun _ => rfl, fun hcon => absurd rfl hcon⟩
  · by_cases hg : cfg.cleanup_every ≤ st.inserts_since_cleanup + 1 ∧
        (cfg.cleanup_interval_sec : ℚ) ≤ now - st.last_cleanup_ts
    · rw [maintain_sweep cfg now st _ hne hg]
      exact ⟨rfl, fun hemp => absurd hemp hne, fun _ => ⟨rfl, (if_pos hg).symm⟩⟩
    · rw [maintain_no_sweep cfg now st _ hne hg]
      exact ⟨rfl, fun hemp => absurd hemp hne, fun _ => ⟨rfl, (if_neg hg).symm⟩⟩

/-- Witness for claim C4 at the empty submission: nothing inserted, the
state is untouched and the outcome is still success. -/
theorem c4_counters_per_submission_witness :
    (do_POST defaultConfig c4Payload 1700000000 1700000000 initState = some c4Res) ∧
    c4Res.inserted = [] ∧ c4Res.status = 200 ∧ c4Res.state = initState := by
  have h : do_POST defaultConfig c4Payload 1700000000 1700000000 initState = some c4Res := by
    decide
  have hc := c4_counters_per_submission defaultConfig c4Payload 1700000000 1700000000
    initState c4Res h
  exact ⟨h, by decide, hc.1, hc.2.1 (by decide)⟩

/-! ## Claim C5 -/

/-- Claim C5: at a submission that inserted at least one row, a retention
sweep runs exactly when both gates hold: the sweep counter (after its
advance) has reached the count threshold and at least the configured
minimum interval of wall-clock time has elapsed since the last sweep.
When either gate fails no sweep runs: the store is exactly the previous
rows followed by the inserted ones (nothing deleted) and the last-sweep
watermark is unchanged.  The step inserts the rows and evaluates the
gate once, so a qualifying insert runs exactly one sweep. -/
theorem c5_sweep_gating :
    ∀ cfg p ts now st res, do_POST cfg p ts now st = some res → res.inserted ≠ [] →
      (res.swept = true ↔
        cfg.cleanup_every ≤ st.inserts_since_cleanup + 1 ∧
        (cfg.cleanup_interval_sec : ℚ) ≤ now - st.last_cleanup_ts) ∧
      (res.swept = false →
        res.state.rows = st.rows ++ res.inserted ∧
        res.state.last_cleanup_ts = st.last_cleanup_ts) := by
  intro cfg p ts now st res h hne
  obtain ⟨zs, hz, rfl⟩ := do_POST_some h
  rw [maintain_inserted] at hne
  by_cases hg : cfg.cleanup_every ≤ st.inserts_since_cleanup + 1 ∧
      (cfg.cleanup_interval_sec : ℚ) ≤ now - st.last_cleanup_ts
  · rw [maintain_sweep cfg now st _ hne hg]
    exact ⟨⟨fun _ => hg, fun _ => rfl⟩, fun hsw => Bool.noConfusion hsw⟩
  · rw [maintain_no_sweep cfg now st _ hne hg]
    exact ⟨⟨fun hsw => Bool.noConfusion hsw, fun hgate => absurd hgate hg⟩,
      fun _ => ⟨rfl, rfl⟩⟩

/-- Witness for claim C5 at a concrete submission where the count gate
fails (1 of 400 inserts) although the time gate would be satisfied: no
sweep runs, nothing is deleted and the watermark is unchanged. -/
theorem c5_sweep_gating_witness :
    (do_POST defaultConfig c5Payload 1700000000 1700000000 initState = some c5Res) ∧
    c5Res.swept = false ∧
    c5Res.state.rows = initState.rows ++ c5Res.inserted ∧
    c5Res.state.last_cleanup_ts = initState.last_cleanup_ts := by
  have h : do_POST defaultConfig c5Payload 1700000000 1700000000 initState = some c5Res := by
    decide
  have hc := c5_sweep_gating defaultConfig c5Payload 1700000000 1700000000 initState c5Res
    h (by decide)
  have hfalse : c5Res.swept = false := by decide
  exact ⟨h, hfalse, (hc.2 hfalse).1, (hc.2 hfalse).2⟩

/-! ## Claim C6 -/

/-- Claim C6: whenever a sweep runs at a submission, with the cutoff
equal to int(now) minus retention_days converted to seconds, the
resulting store is a sublist (same rows, same order, all fields
unchanged) of the previous rows followed by the inserted ones; every
remaining row has timestamp at least the cutoff; every row with
timestamp at least the cutoff is kept, and kept with its exact
multiplicity; and the deleted count plus the kept count equals the
total, so exactly the rows below the cutoff were removed. -/
theorem c6_retention_exact :
    ∀ cfg p ts now st res, do_POST cfg p ts now st = some res → res.swept = true →
      List.Sublist res.state.rows (st.rows ++ res.inserted) ∧
      (∀ r, r ∈ res.state.rows →
        pyInt now - (cfg.retention_days : ℤ) * 24 * 3600 ≤ r.ts) ∧
      (∀ r, r ∈ st.rows ++ res.inserted →
        pyInt now - (cfg.retention_days : ℤ) * 24 * 3600 ≤ r.ts → r ∈ res.state.rows) ∧
      (∀ r, List.count r res.state.rows =
        (if pyInt now - (cfg.retention_days : ℤ) * 24 * 3600 ≤ r.ts
         then List.count r (st.rows ++ res.inserted) else 0)) ∧
      res.deleted + res.state.rows.length = (st.rows ++ res.inserted).length := by
  intro cfg p ts now st res h hsw
  obtain ⟨zs, hz, rfl⟩ := do_POST_some h
  by_cases hne : groupRows cfg p ts zs.1 zs.2 = []
  · rw [hne, maintain_nil] at hsw
    exact Bool.noConfusion hsw
  · by_cases hg : cfg.cleanup_every ≤ st.inserts_since_cleanup + 1 ∧
        (cfg.cleanup_interval_sec : ℚ) ≤ now - st.last_cleanup_ts
    · rw [maintain_sweep cfg now st _ hne hg]
      refine ⟨List.filter_sublist _, ?_, ?_, ?_, ?_⟩
      · intro r hr
        have hp := (List.mem_filter.mp hr).2
        simp only [Bool.not_eq_true', decide_eq_false_iff_not] at hp
        exact not_lt.mp hp
      · intro r hr hle
        refine List.mem_filter.mpr ⟨hr, ?_⟩
        simp only [Bool.not_eq_true', decide_eq_false_iff_not]
        exact not_lt.mpr hle
      · intro r
        by_cases hcut : pyInt now - (cfg.retention_days : ℤ) * 24 * 3600 ≤ r.ts
        · rw [if_pos hcut]
          exact List.count_filter (by simp [not_lt.mpr hcut])
        · rw [if_neg hcut]
          rw [List.count_eq_zero]
          intro hmem
          have hp := (List.mem_filter.mp hmem).2
          simp only [Bool.not_eq_true', decide_eq_false_iff_not] at hp
          exact hcut (not_lt.mp hp)
      · exact length_filter_pos_add_neg _ _
    · rw [maintain_no_sweep cfg now st _ hne hg] at hsw
      exact Bool.noConfusion hsw

/-- Witness for claim C6 at a concrete sweep: the ancient row is removed
entirely, the fresh row is kept with unchanged multiplicity, and the
surviving store is a sublist of the pre-sweep store. -/
theorem c6_retention_exact_witness :
    (do_POST c6Config c6Payload 1700000000 1700000000 c6State = some c6Res) ∧
    c6Res.swept = true ∧
    List.Sublist c6Res.state.rows (c6State.rows ++ c6Res.inserted) ∧
    List.count c6OldRow c6Res.state.rows = 0 ∧
    List.count c6NewRow c6Res.state.rows =
      List.count c6NewRow (c6State.rows ++ c6Res.inserted) := by
  have h : do_POST c6Config c6Payload 1700000000 1700000000 c6State = some c6Res := by
    unfold do_POST
    rw [show hintsOf c6Config c6Payload = some ("", "esp32") from by decide]
    show some (maintain c6Config 1700000000 c6State
      (groupRows c6Config c6Payload 1700000000 "" "esp32")) = some c6Res
    rw [show groupRows c6Config c6Payload 1700000000 "" "esp32" = [c6NewRow] from by decide]
    congr 1
    unfold maintain
    rw [if_neg (by decide)]
    rw [if_pos (show c6Config.cleanup_every ≤ c6State.inserts_since_cleanup + 1 ∧
        (c6Config.cleanup_interval_sec : ℚ) ≤ 1700000000 - c6State.last_cleanup_ts from
        ⟨by decide, by norm_num [c6State, c6Config, defaultConfig]⟩)]
    decide
  have hc := c6_retention_exact c6Config c6Payload 1700000000 1700000000 c6State c6Res
    h (by decide)
  have hold := hc.2.2.2.1 c6OldRow
  rw [if_neg (by decide)] at hold
  have hnew := hc.2.2.2.1 c6NewRow
  rw [if_pos (by decide)] at hnew
  exact ⟨h, by decide, hc.1, hold, hnew⟩

/-! ## Claim C7 -/

/-- Claim C7: every sweep, once triggered, ends with the sweep counter at
zero and the last-sweep watermark at the current wall-clock time, no
matter how many rows it deleted (possibly zero), and it invokes the
incremental vacuum exactly when the deletion removed at least one row. -/
theorem c7_sweep_resets :
    ∀ cfg p ts now st res, do_POST cfg p ts now st = some res → res.swept = true →
      res.state.inserts_since_cleanup = 0 ∧
      res.state.last_cleanup_ts = now ∧
      (res.reclaimed = true ↔ res.deleted ≠ 0) := by
  intro cfg p ts now st res h hsw
  obtain ⟨zs, hz, rfl⟩ := do_POST_some h
  by_cases hne : groupRows cfg p ts zs.1 zs.2 = []
  · rw [hne, maintain_nil] at hsw
    exact Bool.noConfusion hsw
  · by_cases hg : cfg.cleanup_every ≤ st.inserts_since_cleanup + 1 ∧
        (cfg.cleanup_interval_sec : ℚ) ≤ now - st.last_cleanup_ts
    · rw [maintain_sweep cfg now st _ hne hg]
      exact ⟨rfl, rfl, decide_eq_true_iff⟩
    · rw [maintain_no_sweep cfg now st _ hne hg] at hsw
      exact Bool.noConfusion hsw

/-- Witness for claim C7 at a concrete zero-deletion sweep: the counter
and watermark are still reset, and no vacuum runs because the deleted
count is zero. -/
theorem c7_sweep_resets_witness :
    (do_POST c6Config c7Payload 1700000000 1700000000 initState = some c7Res) ∧
    c7Res.swept = true ∧ c7Res.deleted = 0 ∧
    c7Res.state.inserts_since_cleanup = 0 ∧
    c7Res.state.last_cleanup_ts = 1700000000 ∧
    c7Res.reclaimed = false := by
  have h : do_POST c6Config c7Payload 1700000000 1700000000 initState = some c7Res := by
    unfold do_POST
    rw [show hintsOf c6Config c7Payload = some ("", "esp32") from by decide]
    show some (maintain c6Config 1700000000 initState
      (groupRows c6Config c7Payload 1700000000 "" "esp32")) = some c7Res
    rw [show groupRows c6Config c7Payload 1700000000 "" "esp32" = [c7Row] from by decide]
    congr 1
    unfold maintain
    rw [if_neg (by decide)]
    rw [if_pos (show c6Config.cleanup_every ≤ initState.inserts_since_cleanup + 1 ∧
        (c6Config.cleanup_interval_sec : ℚ) ≤ 1700000000 - initState.last_cleanup_ts from
        ⟨by decide, by norm_num [initState, c6Config, defaultConfig]⟩)]
    decide
  have hc := c7_sweep_resets c6Config c7Payload 1700000000 1700000000 initState c7Res
    h (by decide)
  refine ⟨h, by decide, by decide, hc.1, hc.2.1, ?_⟩
  exact Bool.eq_false_iff.mpr fun hr => absurd (hc.2.2.mp hr) (by decide)

/-! ## Claim C8 -/

/-- Claim C8: zone resolution is the pure function resolve_zone of the
sensor kind, the payload hint and the configuration.  With hard binding
enabled and the sensor bound indoor, the result is indoor whatever the
hint says; with hard binding disabled the same submission resolves to the
hint outdoor; a recognized hint is matched after lowercasing and
stripping, and the lowered stripped form is stored; with no recognized
hint and no applicable binding the result is the configured default
zone. -/
theorem c8_zone_resolution :
    ∀ cfg sensor hint,
      (cfg.force_zone_by_sensor = true → cfg.indoor_sensor ≠ "" →
        pyStrip (pyLower sensor) = cfg.indoor_sensor →
        resolve_zone cfg sensor hint = "indoor") ∧
      (cfg.force_zone_by_sensor = false → pyStrip (pyLower hint) = "outdoor" →
        resolve_zone cfg sensor hint = "outdoor") ∧
      ((cfg.force_zone_by_sensor = true →
          ¬ (cfg.indoor_sensor ≠ "" ∧ pyStrip (pyLower sensor) = cfg.indoor_sensor) ∧
          ¬ (cfg.outdoor_sensor ≠ "" ∧ pyStrip (pyLower sensor) = cfg.outdoor_sensor)) →
        (pyStrip (pyLower hint) = "indoor" ∨ pyStrip (pyLower hint) = "outdoor") →
        resolve_zone cfg sensor hint = pyStrip (pyLower hint)) ∧
      ((cfg.force_zone_by_sensor = true →
          ¬ (cfg.indoor_sensor ≠ "" ∧ pyStrip (pyLower sensor) = cfg.indoor_sensor) ∧
          ¬ (cfg.outdoor_sensor ≠ "" ∧ pyStrip (pyLower sensor) = cfg.outdoor_sensor)) →
        pyStrip (pyLower hint) ≠ "indoor" → pyStrip (pyLower hint) ≠ "outdoor" →
        resolve_zone cfg sensor hint = cfg.default_zone) := by
  intro cfg sensor hint
  refine ⟨?_, ?_, ?_, ?_⟩
  · intro hf hi hs
    simp only [resolve_zone]
    split_ifs with h1 h2 h3
    · rfl
    · exact absurd ⟨hf, hi, hs⟩ h1
    · exact absurd ⟨hf, hi, hs⟩ h1
    · exact absurd ⟨hf, hi, hs⟩ h1
  · intro hf hz
    simp only [resolve_zone]
    split_ifs with h1 h2 h3
    · simp [hf] at h1
    · simp [hf] at h2
    · exact hz
    · exfalso
      apply h3
      refine ⟨fun he => ?_, Or.inr hz⟩
      rw [he] at hz
      exact absurd hz (by decide)
  · intro hnb hz
    simp only [resolve_zone]
    split_ifs with h1 h2 h3
    · exact absurd ⟨h1.2.1, h1.2.2⟩ ((hnb h1.1).1)
    · exact absurd ⟨h2.2.1, h2.2.2⟩ ((hnb h2.1).2)
    · rfl
    · exfalso
      apply h3
      refine ⟨fun he => ?_, hz⟩
      rw [he] at hz
      rcases hz with hz | hz <;> exact absurd hz (by decide)
  · intro hnb hz1 hz2
    simp only [resolve_zone]
    split_ifs with h1 h2 h3
    · exact absurd ⟨h1.2.1, h1.2.2⟩ ((hnb h1.1).1)
    · exact absurd ⟨h2.2.1, h2.2.2⟩ ((hnb h2.1).2)
    · rcases h3.2 with hz | hz
      · exact absurd hz hz1
      · exact absurd hz hz2
    · rfl

/-- Witness for claim C8: the bound sensor overrides the outdoor hint;
with the binding disabled the hint wins; a mixed-case padded hint is
recognized; an unrecognized hint falls back to the default zone. -/
theorem c8_zone_resolution_witness :
    resolve_zone c8On "BME280" "outdoor" = "indoor" ∧
    resolve_zone defaultConfig "BME280" "outdoor" = "outdoor" ∧
    resolve_zone defaultConfig "bme280" " OutDoor " = "outdoor" ∧
    resolve_zone defaultConfig "bme280" "porch" = defaultConfig.default_zone := by
  refine ⟨?_, ?_, ?_, ?_⟩
  · exact (c8_zone_resolution c8On "BME280" "outdoor").1 (by decide) (by decide) (by decide)
  · exact (c8_zone_resolution defaultConfig "BME280" "outdoor").2.1 rfl (by decide)
  · have hc := (c8_zone_resolution defaultConfig "bme280" " OutDoor ").2.2.1
      (fun hf => absurd hf (by decide)) (Or.inr (by decide))
    rw [show pyStrip (pyLower " OutDoor ") = "outdoor" from by decide] at hc
    exact hc
  · exact (c8_zone_resolution defaultConfig "bme280" "porch").2.2.2
      (fun hf => absurd hf (by decide)) (by decide) (by decide)

/-! ## Claim C9 -/

theorem pyParseFloat_empty : pyParseFloat "" = Option.none := by decide

theorem pyParseFloat_lower_nan {t : String} (h : pyLower t = "nan") :
    pyParseFloat t = some PyFloat.nan := by
  unfold pyParseFloat
  rw [h]
  decide

/-- Claim C9: numeric coercion is total (the embedding returns an
optional value for every input, mirroring that to_float never raises):
None, the empty string, the strings nan, inf and -inf all coerce to
absent; a non-finite numeric value coerces to absent; a string whose
parse is not a finite number coerces to absent; and whenever a string
parses to the finite value q, the string form and the numeric form q
coerce to the same stored number q. -/
theorem c9_to_float_total_and_faithful :
    to_float Value.null = Option.none ∧
    to_float (Value.str "") = Option.none ∧
    to_float (Value.str "nan") = Option.none ∧
    to_float (Value.str "inf") = Option.none ∧
    to_float (Value.str "-inf") = Option.none ∧
    to_float (Value.num PyFloat.nan) = Option.none ∧
    to_float (Value.num PyFloat.inf) = Option.none ∧
    to_float (Value.num PyFloat.ninf) = Option.none ∧
    (∀ s, (∀ q, pyParseFloat (pyStrip s) ≠ some (PyFloat.finite q)) →
      to_float (Value.str s) = Option.none) ∧
    (∀ s q, pyParseFloat (pyStrip s) = some (PyFloat.finite q) →
      to_float (Value.str s) = some q ∧
      to_float (Value.num (PyFloat.finite q)) = some q) := by
  refine ⟨by decide, by decide, by decide, by decide, by decide, rfl, rfl, rfl, ?_, ?_⟩
  · intro s hq
    simp only [to_float]
    by_cases hguard : pyStrip s = "" ∨ pyLower (pyStrip s) = "nan"
    · rw [if_pos hguard]
    · rw [if_neg hguard]
  · intro s q hp
    constructor
    · have h1 : pyStrip s ≠ "" := by
        intro he
        rw [he, pyParseFloat_empty] at hp
        exact Option.noConfusion hp
      have h2 : pyLower (pyStrip s) ≠ "nan" := by
        intro he
        rw [pyParseFloat_lower_nan he] at hp
        exact PyFloat.noConfusion (Option.some_inj.mp hp)
      simp only [to_float]
      rw [if_neg (not_or.mpr ⟨h1, h2⟩), hp]
    · rfl

/-- Witness for claim C9 at the padded string 21.5: it parses to the
rational 21.5, whose string and numeric forms coerce identically. -/
theorem c9_to_float_witness :
    pyParseFloat (pyStrip " 21.5 ") = some (PyFloat.finite (mkRat 215 10)) ∧
    to_float (Value.str " 21.5 ") = some (mkRat 215 10) ∧
    to_float (Value.num (PyFloat.finite (mkRat 215 10))) = some (mkRat 215 10) := by
  have hp : pyParseFloat (pyStrip " 21.5 ") = some (PyFloat.finite (mkRat 215 10)) := by
    decide
  have hc := c9_to_float_total_and_faithful.2.2.2.2.2.2.2.2.2 " 21.5 " (mkRat 215 10) hp
  exact ⟨hp, hc.1, hc.2⟩

/-! ## Claim C10 -/

/-- Claim C10: every row a submission inserts with sensor dht22 has a
NULL press column, whatever pressure value the payload carries; the DHT
INSERT never mentions the pressure column. -/
theorem c10_dht_rows_no_pressure :
    ∀ cfg p ts now st res r, do_POST cfg p ts now st = some res →
      r ∈ res.inserted → r.sensor = "dht22" → r.press = Option.none := by
  intro cfg p ts now st res r h hr hs
  obtain ⟨zs, hz, rfl⟩ := do_POST_some h
  rw [maintain_inserted] at hr
  simp only [groupRows] at hr
  rw [List.mem_append] at hr
  rcases hr with hr | hr
  · by_cases hd : (to_float (dhtTempRaw p)).isSome ∨ (to_float (dhtHumRaw p)).isSome
    · rw [if_pos hd, List.mem_singleton] at hr
      subst hr
      rfl
    · rw [if_neg hd] at hr
      exact absurd hr (List.not_mem_nil r)
  · by_cases hb : (to_float (bmeTempRaw p)).isSome ∨ (to_float (bmeHumRaw p)).isSome ∨
        (to_float (bmePressRaw p)).isSome
    · rw [if_pos hb, List.mem_singleton] at hr
      subst hr
      simp only [mkRow] at hs
      exact absurd hs (by decide)
    · rw [if_neg hb] at hr
      exact absurd hr (List.not_mem_nil r)

/-- Witness for claim C10 at a submission carrying both a DHT reading
and a pressure value: the inserted dht22 row still has a NULL press
column (the pressure lands in the bme280 row). -/
theorem c10_dht_rows_no_pressure_witness :
    (do_POST defaultConfig c10Payload 1700000000 1700000000 initState = some c10Res) ∧
    c10DhtRow ∈ c10Res.inserted ∧ c10DhtRow.sensor = "dht22" ∧
    c10DhtRow.press = Option.none :=
  ⟨by decide, by decide, by decide,
    c10_dht_rows_no_pressure defaultConfig c10Payload 1700000000 1700000000 initState c10Res
      c10DhtRow (by decide) (by decide) (by decide)⟩

end WeatherEsp
